/-
Verification of the financial computation core of the AI Personal Finance
Manager repository.

The Python source is shallowly embedded: monetary amounts become rationals
(`ℚ`), Python's `round(x, 2)` becomes `round2` (round half to even, as
Python's builtin `round`), and a Python function that can raise an
exception becomes a function into `Except PyErr _`, where the error value
records which exception Python would raise.  Statistics on real-valued
series (mean / standard deviation, used by the rule-based anomaly
detector) and the XIRR Newton iteration (which exponentiates by
non-integer year fractions) are embedded over `ℝ`.
-/
import Mathlib

/-- Exceptions the embedded Python code can raise.  `zeroDivisionError`
models Python's `ZeroDivisionError` (float or integer division by zero),
`indexError` models `IndexError` (out-of-range subscript). -/
inductive PyErr where
  | zeroDivisionError
  | indexError
  deriving DecidableEq, Repr

/-- Round a rational to the nearest integer, ties to even — the rounding
of Python's builtin `round`. -/
def roundTE (q : ℚ) : ℤ :=
  let f := ⌊q⌋
  let r := q - f
  if r < 1/2 then f
  else if 1/2 < r then f + 1
  else if Even f then f else f + 1

/-- Python's `round(x, 2)`: round to two decimal places, ties to even. -/
def round2 (q : ℚ) : ℚ := (roundTE (100 * q) : ℚ) / 100

/-- `FinancialCalculator.calculate_sip_value` (src/utils/calculations.py).
Returns the pair `(total_invested, current_value)`. -/
def calculate_sip_value (monthly_amount annual_return : ℚ) (months : ℕ) : ℚ × ℚ :=
  let monthly_rate := annual_return / (12 * 100)
  let fv :=
    if 0 < monthly_rate then
      monthly_amount * (((1 + monthly_rate) ^ months - 1) / monthly_rate) * (1 + monthly_rate)
    else
      monthly_amount * months
  (round2 (monthly_amount * months), round2 fv)

/-- `FinancialCalculator.calculate_emi` (src/utils/calculations.py).
The tenure is an `ℤ` because Python accepts any int here; the function
performs no input validation, so a vanishing denominator surfaces as a
`ZeroDivisionError`. -/
def calculate_emi (principal annual_rate : ℚ) (tenure_months : ℤ) : Except PyErr ℚ :=
  let monthly_rate := annual_rate / (12 * 100)
  if 0 < monthly_rate then
    if ((1 + monthly_rate) ^ tenure_months) - 1 = 0 then
      .error .zeroDivisionError
    else
      .ok (round2 (principal * monthly_rate * ((1 + monthly_rate) ^ tenure_months) /
        (((1 + monthly_rate) ^ tenure_months) - 1)))
  else
    if (tenure_months : ℚ) = 0 then .error .zeroDivisionError
    else .ok (round2 (principal / (tenure_months : ℚ)))

/-- The EMI computed inline by `create_loan` (src/backend/crud.py): the
annuity formula is applied unconditionally, with no zero-rate branch. -/
def create_loan_emi (principal annual_rate : ℚ) (tenure_months : ℤ) : Except PyErr ℚ :=
  let r := annual_rate / (12 * 100)
  if ((1 + r) ^ tenure_months) - 1 = 0 then
    .error .zeroDivisionError
  else
    .ok (round2 (principal * r * ((1 + r) ^ tenure_months) / (((1 + r) ^ tenure_months) - 1)))

/-- One row of the amortization schedule produced by
`FinancialCalculator.calculate_loan_schedule`: the dict
`{month, emi, interest, principal, balance}`. -/
structure ScheduleRow where
  month : ℕ
  emi : ℚ
  interest : ℚ
  principal : ℚ
  balance : ℚ
  deriving DecidableEq, Repr

/-- The loop body of `calculate_loan_schedule`: starting at month `month`
with running balance `bal`, emit `k` further rows.  Each row computes
`interest = bal * monthly_rate`, `principal_paid = emi - interest`,
decrements the running balance by `principal_paid` (unclamped), and
stores the interest and principal rounded to 2 decimals together with
the reported balance `round2 (max bal 0)`. -/
def scheduleFrom (monthly_rate emi : ℚ) : ℚ → ℕ → ℕ → List ScheduleRow
  | _, _, 0 => []
  | bal, month, k + 1 =>
    let interest := bal * monthly_rate
    let principal_paid := emi - interest
    let newBal := bal - principal_paid
    ⟨month, emi, round2 interest, round2 principal_paid, round2 (max newBal 0)⟩ ::
      scheduleFrom monthly_rate emi newBal (month + 1) k

/-- `FinancialCalculator.calculate_loan_schedule` (src/utils/calculations.py):
rows for months `1 .. tenure_months`, starting from `balance = principal`. -/
def calculate_loan_schedule (principal annual_rate : ℚ) (tenure_months : ℕ)
    (emi : ℚ) : List ScheduleRow :=
  scheduleFrom (annual_rate / (12 * 100)) emi principal 1 tenure_months

/-- The running (unclamped) balance after `k` iterations of the
`calculate_loan_schedule` loop: `balance -= emi - balance * monthly_rate`. -/
def runningBalance (monthly_rate emi P : ℚ) : ℕ → ℚ
  | 0 => P
  | k + 1 =>
    let bal := runningBalance monthly_rate emi P k
    bal - (emi - bal * monthly_rate)

/-- Input of `compute_snapshot_data` (src/backend/main.py): the stored
records fetched from the database for one user and month, reduced to the
fields the snapshot computation reads.  `none` in an instrument list
models a SQL NULL (`or 0` in the source); `income = none` models no
income row for the month. -/
structure SnapshotInput where
  stocks : List (Option ℚ)
  sips : List (Option ℚ)
  mutualFunds : List (Option ℚ)
  lumpSums : List (Option ℚ)
  loans : List (Option ℚ)
  creditCards : List (Option ℚ)
  income : Option ℚ
  expenses : List ℚ

/-- `sum((x.field or 0) for x in rows)`. -/
def sumOr0 (l : List (Option ℚ)) : ℚ := (l.map (fun o => o.getD 0)).sum

/-- The dict returned by `compute_snapshot_data` (src/backend/main.py). -/
structure Snapshot where
  total_stocks_value : ℚ
  total_sip_value : ℚ
  total_mutual_fund_value : ℚ
  total_lump_sum_value : ℚ
  savings : ℚ
  total_assets : ℚ
  total_loan_outstanding : ℚ
  total_credit_card_outstanding : ℚ
  total_liabilities : ℚ
  net_worth : ℚ
  predicted_next_month : Option ℚ
  deriving DecidableEq, Repr

/-- `compute_snapshot_data` (src/backend/main.py, lines 268-308). -/
def compute_snapshot_data (inp : SnapshotInput) : Snapshot :=
  let total_stocks_value := sumOr0 inp.stocks
  let total_sip_value := sumOr0 inp.sips
  let total_mutual_fund_value := sumOr0 inp.mutualFunds
  let total_lump_sum_value := sumOr0 inp.lumpSums
  let monthly_income := inp.income.getD 0
  let monthly_expense := inp.expenses.sum
  let savings := monthly_income - monthly_expense
  let total_assets := total_stocks_value + total_sip_value + total_mutual_fund_value +
    total_lump_sum_value + max savings 0
  let total_loan_outstanding := sumOr0 inp.loans
  let total_credit_card_outstanding := sumOr0 inp.creditCards
  let total_liabilities := total_loan_outstanding + total_credit_card_outstanding
  let net_worth := total_assets - total_liabilities
  { total_stocks_value := round2 total_stocks_value
    total_sip_value := round2 total_sip_value
    total_mutual_fund_value := round2 total_mutual_fund_value
    total_lump_sum_value := round2 total_lump_sum_value
    savings := round2 (max savings 0)
    total_assets := round2 total_assets
    total_loan_outstanding := round2 total_loan_outstanding
    total_credit_card_outstanding := round2 total_credit_card_outstanding
    total_liabilities := round2 total_liabilities
    net_worth := round2 net_worth
    predicted_next_month := none }

/-- `A rational is an exact multiple of 0.01` — the values representable
with at most two decimal places. -/
def isCent (q : ℚ) : Prop := ∃ k : ℤ, q = (k : ℚ) / 100

instance (q : ℚ) : Decidable (isCent q) :=
  decidable_of_iff ((100 * q).den = 1) (by
    constructor
    · intro h
      exact ⟨(100 * q).num, by
        rw [show ((100 * q).num : ℚ) = 100 * q from by
          conv_rhs => rw [← Rat.num_div_den (100 * q)]
          rw [h]; push_cast; ring]
        ring⟩
    · rintro ⟨k, rfl⟩
      rw [show (100 : ℚ) * ((k : ℚ) / 100) = (k : ℚ) by ring]
      exact Rat.den_intCast k)

/-- All monetary fields of a snapshot input are exact multiples of 0.01. -/
def centInput (inp : SnapshotInput) : Prop :=
  (∀ o ∈ inp.stocks, isCent (o.getD 0)) ∧
  (∀ o ∈ inp.sips, isCent (o.getD 0)) ∧
  (∀ o ∈ inp.mutualFunds, isCent (o.getD 0)) ∧
  (∀ o ∈ inp.lumpSums, isCent (o.getD 0)) ∧
  (∀ o ∈ inp.loans, isCent (o.getD 0)) ∧
  (∀ o ∈ inp.creditCards, isCent (o.getD 0)) ∧
  isCent (inp.income.getD 0) ∧
  (∀ q ∈ inp.expenses, isCent q)

/-- `pandas.Series.mean` of a list of values. -/
noncomputable def seriesMean (xs : List ℝ) : ℝ := xs.sum / xs.length

/-- `pandas.Series.std` of a list of values: the sample standard
deviation (ddof = 1), `sqrt (Σ (x - mean)² / (n - 1))`. -/
noncomputable def seriesStd (xs : List ℝ) : ℝ :=
  Real.sqrt ((xs.map (fun x => (x - seriesMean xs) ^ 2)).sum / ((xs.length : ℝ) - 1))

/-- One anomaly record emitted by
`ExpenseAnomalyDetector._rule_based_detection` (months identified by
their position in the grouped monthly-totals series). -/
structure AnomalyRecord where
  month : ℕ
  total_expense : ℝ
  threshold : ℝ
  deviation : ℝ

/-- `ExpenseAnomalyDetector._rule_based_detection`
(src/ml_models/autoencoder_anomaly.py, lines 181-218), applied to the
monthly totals of the grouped expense series: fewer than 3 monthly totals
yield no anomalies; otherwise every month whose total exceeds
`mean + 2 * std` is reported, with `deviation = (total - mean) / std`. -/
noncomputable def rule_based_detection (monthly_totals : List ℝ) : List AnomalyRecord :=
  if monthly_totals.length < 3 then []
  else
    let mean_expense := seriesMean monthly_totals
    let std_expense := seriesStd monthly_totals
    let threshold := mean_expense + 2 * std_expense
    monthly_totals.enum.filterMap fun p =>
      if threshold < p.2 then
        some ⟨p.1, p.2, threshold, (p.2 - mean_expense) / std_expense⟩
      else none

/-- The Newton-Raphson loop of `FinancialCalculator.calculate_xirr`:
at most `fuel` iterations, stopping early when `|dnpv| < 1e-6`. -/
noncomputable def xirrNewton (cashflows : List ℝ) (years : List ℝ) : ℕ → ℝ → ℝ
  | 0, rate => rate
  | fuel + 1, rate =>
    let npv := ((cashflows.zip years).map fun p => p.1 / (1 + rate) ^ p.2).sum
    let dnpv := ((cashflows.zip years).map fun p => -p.1 * p.2 / (1 + rate) ^ (p.2 + 1)).sum
    if |dnpv| < 1 / 1000000 then rate
    else xirrNewton cashflows years fuel (rate - npv / dnpv)

/-- Python's `round(x, 2)` on a real value (ties to even). -/
noncomputable def round2R (x : ℝ) : ℝ :=
  let f := ⌊100 * x⌋
  let r := 100 * x - f
  (if r < 1/2 then (f : ℝ) else if 1/2 < r then f + 1
   else if Even f then f else f + 1) / 100

/-- `FinancialCalculator.calculate_xirr` (src/utils/calculations.py,
lines 152-185).  Dates are embedded as day ordinals (`ℤ`), so
`(d - d₀).days` is plain integer subtraction.  A length mismatch returns
`0.0`; on equal lengths the first date is subscripted unconditionally, so
empty inputs raise `IndexError`; otherwise 100 Newton iterations from the
initial guess `0.1` produce `round(rate * 100, 2)`. -/
noncomputable def calculate_xirr (cashflows : List ℝ) (dates : List ℤ) : Except PyErr ℝ :=
  if cashflows.length ≠ dates.length then .ok 0
  else
    match dates with
    | [] => .error .indexError
    | first_date :: _ =>
      let years := dates.map fun d => ((d - first_date : ℤ) : ℝ) / 365.25
      .ok (round2R (xirrNewton cashflows years 100 (1/10) * 100))

theorem roundTE_intCast (k : ℤ) : roundTE (k : ℚ) = k := by
  unfold roundTE
  simp [Int.floor_intCast]

theorem roundTE_nonneg {q : ℚ} (hq : 0 ≤ q) : 0 ≤ roundTE q := by
  unfold roundTE
  dsimp only
  have h0 : (0 : ℤ) ≤ ⌊q⌋ := Int.floor_nonneg.mpr hq
  split
  · exact h0
  · split
    · omega
    · split <;> omega

theorem round2_nonneg {q : ℚ} (hq : 0 ≤ q) : 0 ≤ round2 q := by
  unfold round2
  have : (0 : ℤ) ≤ roundTE (100 * q) := roundTE_nonneg (by positivity)
  positivity

theorem round2_isCent {q : ℚ} (hq : isCent q) : round2 q = q := by
  obtain ⟨k, rfl⟩ := hq
  unfold round2
  rw [show (100 : ℚ) * ((k : ℚ) / 100) = (k : ℚ) by ring, roundTE_intCast]

theorem isCent_zero : isCent 0 := ⟨0, by norm_num⟩

theorem isCent_add {a b : ℚ} (ha : isCent a) (hb : isCent b) : isCent (a + b) := by
  obtain ⟨j, rfl⟩ := ha
  obtain ⟨k, rfl⟩ := hb
  exact ⟨j + k, by push_cast; ring⟩

theorem isCent_sub {a b : ℚ} (ha : isCent a) (hb : isCent b) : isCent (a - b) := by
  obtain ⟨j, rfl⟩ := ha
  obtain ⟨k, rfl⟩ := hb
  exact ⟨j - k, by push_cast; ring⟩

theorem isCent_max_zero {a : ℚ} (ha : isCent a) : isCent (max a 0) := by
  rcases le_total a 0 with h | h
  · rw [max_eq_right h]; exact isCent_zero
  · rw [max_eq_left h]; exact ha

theorem isCent_list_sum {l : List ℚ} (h : ∀ q ∈ l, isCent q) : isCent l.sum := by
  induction l with
  | nil => simpa using isCent_zero
  | cons x xs ih =>
    rw [List.sum_cons]
    exact isCent_add (h x (by simp)) (ih fun q hq => h q (by simp [hq]))

theorem isCent_sumOr0 {l : List (Option ℚ)} (h : ∀ o ∈ l, isCent (o.getD 0)) :
    isCent (sumOr0 l) := by
  unfold sumOr0
  refine isCent_list_sum ?_
  intro q hq
  rw [List.mem_map] at hq
  obtain ⟨o, ho, rfl⟩ := hq
  exact h o ho

/-- Claim C3 (confirmed): for every combination of income and expense
records for a month (no records counting as 0), the `savings` field of
the snapshot equals `max (income_total - expense_total) 0` (rounded to
2 decimals at persistence, as all snapshot fields are) and is therefore
never negative, even when the expense total exceeds the income total. -/
theorem claim_C3_savings_floor (inp : SnapshotInput) :
    (compute_snapshot_data inp).savings =
      round2 (max (inp.income.getD 0 - inp.expenses.sum) 0) ∧
    0 ≤ (compute_snapshot_data inp).savings :=
  ⟨rfl, round2_nonneg (le_max_right _ _)⟩

/-- Claim C10 (confirmed): `calculate_xirr` applied to two empty lists
passes the equal-length check and then subscripts `dates[0]`, raising
`IndexError`: emptiness is an unguarded edge case. -/
theorem claim_C10_xirr_empty :
    calculate_xirr [] [] = .error .indexError := by
  unfold calculate_xirr
  simp

/-- Claim C7 (corrected): when the cashflow and date lists have different
lengths, `calculate_xirr` returns the numeric result `0.0` — it does not
raise an `InvalidInputError` (no such exception exists in the code). -/
theorem claim_C7_xirr_mismatch (cashflows : List ℝ) (dates : List ℤ)
    (h : cashflows.length ≠ dates.length) :
    calculate_xirr cashflows dates = .ok 0 := by
  unfold calculate_xirr
  rw [if_pos h]

theorem claim_C7_witness :
    ([(1 : ℝ)].length ≠ ([] : List ℤ).length) ∧ calculate_xirr [1] [] = .ok 0 :=
  ⟨by decide, claim_C7_xirr_mismatch [1] [] (by decide)⟩

/-- Claim C7, counterexample to the claim as stated: on the concrete
mismatched input `cashflows = [1]`, `dates = []`, `calculate_xirr`
returns the number `0.0` rather than failing. -/
theorem claim_C7_counterexample :
    calculate_xirr [(1 : ℝ)] [] = .ok 0 := by
  unfold calculate_xirr
  simp

/-- Claim C5 (amended): for every monthly amount, rate and month count,
`calculate_sip_value` returns `total_invested = round2 (A * n)`; when
`r > 0` the current value is the rounded annuity-due future value; when
`r = 0` the current value is `round2 (A * n)`, which equals `A * n`
exactly whenever `A * n` is an exact multiple of 0.01. -/
theorem claim_C5_sip_value (A r : ℚ) (n : ℕ) :
    (calculate_sip_value A r n).1 = round2 (A * n) ∧
    (0 < r → (calculate_sip_value A r n).2 =
      round2 (A * (((1 + r / (12 * 100)) ^ n - 1) / (r / (12 * 100))) *
        (1 + r / (12 * 100)))) ∧
    (r = 0 → (calculate_sip_value A r n).2 = round2 (A * n)) ∧
    (r = 0 → isCent (A * n) → (calculate_sip_value A r n).2 = A * n) := by
  refine ⟨rfl, ?_, ?_, ?_⟩
  · intro hr
    have hm : 0 < r / (12 * 100) := by positivity
    unfold calculate_sip_value
    dsimp only
    rw [if_pos hm]
  · rintro rfl
    unfold calculate_sip_value
    norm_num
  · rintro rfl hc
    unfold calculate_sip_value
    norm_num
    exact round2_isCent hc

theorem claim_C5_witness :
    (0 : ℚ) < 12 ∧ (0 : ℚ) = 0 ∧ isCent ((5 : ℚ) / 2 * (3 : ℕ)) ∧
    (calculate_sip_value 1 12 1).2 =
      round2 (1 * (((1 + 12 / (12 * 100)) ^ (1 : ℕ) - 1) / (12 / (12 * 100))) *
        (1 + 12 / (12 * 100))) ∧
    (calculate_sip_value (5 / 2) 0 3).2 = 5 / 2 * (3 : ℕ) :=
  ⟨by norm_num, rfl, ⟨750, by push_cast; norm_num⟩,
   (claim_C5_sip_value 1 12 1).2.1 (by norm_num),
   (claim_C5_sip_value (5 / 2) 0 3).2.2.2 rfl ⟨750, by push_cast; norm_num⟩⟩

/-- Claim C5, counterexample to the claim as stated: with the sub-cent
monthly amount `A = 0.001`, `r = 0` and `n = 1`, the current value is
`round(0.001, 2) = 0.0`, not `A * n = 0.001` — the zero-rate case does
not collapse to `A * n` exactly. -/
theorem claim_C5_counterexample :
    (calculate_sip_value (1 / 1000) 0 1).2 = 0 ∧
    ((1 : ℚ) / 1000) * ((1 : ℕ) : ℚ) ≠ 0 := by
  constructor
  · norm_num [calculate_sip_value, round2, roundTE]
  · norm_num

/-- Claim C2 (amended): for every snapshot input, the three balance-sheet
equations hold exactly on the unrounded totals — the persisted
`total_assets`, `total_liabilities` and `net_worth` fields are the
2-decimal roundings of `stocks + sips + mutual_funds + lump_sums +
max savings 0`, `loans + credit_cards` and `assets - liabilities`
respectively — and when every input amount is an exact multiple of 0.01
the equations also hold exactly between the persisted rounded fields. -/
theorem claim_C2_snapshot_equations (inp : SnapshotInput) :
    (compute_snapshot_data inp).total_assets =
      round2 (sumOr0 inp.stocks + sumOr0 inp.sips + sumOr0 inp.mutualFunds +
        sumOr0 inp.lumpSums + max (inp.income.getD 0 - inp.expenses.sum) 0) ∧
    (compute_snapshot_data inp).total_liabilities =
      round2 (sumOr0 inp.loans + sumOr0 inp.creditCards) ∧
    (compute_snapshot_data inp).net_worth =
      round2 ((sumOr0 inp.stocks + sumOr0 inp.sips + sumOr0 inp.mutualFunds +
        sumOr0 inp.lumpSums + max (inp.income.getD 0 - inp.expenses.sum) 0) -
        (sumOr0 inp.loans + sumOr0 inp.creditCards)) ∧
    (centInput inp →
      (compute_snapshot_data inp).total_assets =
        (compute_snapshot_data inp).total_stocks_value +
        (compute_snapshot_data inp).total_sip_value +
        (compute_snapshot_data inp).total_mutual_fund_value +
        (compute_snapshot_data inp).total_lump_sum_value +
        (compute_snapshot_data inp).savings ∧
      (compute_snapshot_data inp).total_liabilities =
        (compute_snapshot_data inp).total_loan_outstanding +
        (compute_snapshot_data inp).total_credit_card_outstanding ∧
      (compute_snapshot_data inp).net_worth =
        (compute_snapshot_data inp).total_assets -
        (compute_snapshot_data inp).total_liabilities) := by
  refine ⟨rfl, rfl, rfl, ?_⟩
  rintro ⟨hS, hSip, hMF, hLS, hL, hCC, hInc, hExp⟩
  have cS : isCent (sumOr0 inp.stocks) := isCent_sumOr0 hS
  have cSip : isCent (sumOr0 inp.sips) := isCent_sumOr0 hSip
  have cMF : isCent (sumOr0 inp.mutualFunds) := isCent_sumOr0 hMF
  have cLS : isCent (sumOr0 inp.lumpSums) := isCent_sumOr0 hLS
  have cL : isCent (sumOr0 inp.loans) := isCent_sumOr0 hL
  have cCC : isCent (sumOr0 inp.creditCards) := isCent_sumOr0 hCC
  have cExp : isCent inp.expenses.sum := isCent_list_sum hExp
  have cSav : isCent (max (inp.income.getD 0 - inp.expenses.sum) 0) :=
    isCent_max_zero (isCent_sub hInc cExp)
  have cA : isCent (sumOr0 inp.stocks + sumOr0 inp.sips + sumOr0 inp.mutualFunds +
      sumOr0 inp.lumpSums + max (inp.income.getD 0 - inp.expenses.sum) 0) :=
    isCent_add (isCent_add (isCent_add (isCent_add cS cSip) cMF) cLS) cSav
  have cLiab : isCent (sumOr0 inp.loans + sumOr0 inp.creditCards) := isCent_add cL cCC
  have cNW : isCent ((sumOr0 inp.stocks + sumOr0 inp.sips + sumOr0 inp.mutualFunds +
      sumOr0 inp.lumpSums + max (inp.income.getD 0 - inp.expenses.sum) 0) -
      (sumOr0 inp.loans + sumOr0 inp.creditCards)) := isCent_sub cA cLiab
  refine ⟨?_, ?_, ?_⟩
  · show round2 _ = round2 (sumOr0 inp.stocks) + round2 (sumOr0 inp.sips) +
      round2 (sumOr0 inp.mutualFunds) + round2 (sumOr0 inp.lumpSums) +
      round2 (max (inp.income.getD 0 - inp.expenses.sum) 0)
    rw [round2_isCent cA, round2_isCent cS, round2_isCent cSip, round2_isCent cMF,
      round2_isCent cLS, round2_isCent cSav]
  · show round2 _ = round2 (sumOr0 inp.loans) + round2 (sumOr0 inp.creditCards)
    rw [round2_isCent cLiab, round2_isCent cL, round2_isCent cCC]
  · show round2 _ = round2 _ - round2 _
    rw [round2_isCent cNW, round2_isCent cA, round2_isCent cLiab]

/-- Claim C2, counterexample to the claim as stated: with two sub-cent
holdings of value `0.004` (one stock, one SIP) and nothing else, the
persisted `total_stocks_value` and `total_sip_value` both round to
`0.00` while `total_assets` rounds `0.008` up to `0.01`, so the persisted
fields violate `total_assets = stocks + sips + mutual_funds + lump_sums
+ savings`. -/
theorem claim_C2_counterexample :
    (compute_snapshot_data ⟨[some (1/250)], [some (1/250)], [], [], [], [], none, []⟩).total_assets ≠
      (compute_snapshot_data ⟨[some (1/250)], [some (1/250)], [], [], [], [], none, []⟩).total_stocks_value +
      (compute_snapshot_data ⟨[some (1/250)], [some (1/250)], [], [], [], [], none, []⟩).total_sip_value +
      (compute_snapshot_data ⟨[some (1/250)], [some (1/250)], [], [], [], [], none, []⟩).total_mutual_fund_value +
      (compute_snapshot_data ⟨[some (1/250)], [some (1/250)], [], [], [], [], none, []⟩).total_lump_sum_value +
      (compute_snapshot_data ⟨[some (1/250)], [some (1/250)], [], [], [], [], none, []⟩).savings := by
  norm_num [compute_snapshot_data, sumOr0, round2, roundTE]

theorem claim_C2_witness :
    (compute_snapshot_data ⟨[some (3/2)], [], [], [], [some 2], [], some 10, [4]⟩).total_assets =
      (compute_snapshot_data ⟨[some (3/2)], [], [], [], [some 2], [], some 10, [4]⟩).total_stocks_value +
      (compute_snapshot_data ⟨[some (3/2)], [], [], [], [some 2], [], some 10, [4]⟩).total_sip_value +
      (compute_snapshot_data ⟨[some (3/2)], [], [], [], [some 2], [], some 10, [4]⟩).total_mutual_fund_value +
      (compute_snapshot_data ⟨[some (3/2)], [], [], [], [some 2], [], some 10, [4]⟩).total_lump_sum_value +
      (compute_snapshot_data ⟨[some (3/2)], [], [], [], [some 2], [], some 10, [4]⟩).savings ∧
    (compute_snapshot_data ⟨[some (3/2)], [], [], [], [some 2], [], some 10, [4]⟩).total_liabilities =
      (compute_snapshot_data ⟨[some (3/2)], [], [], [], [some 2], [], some 10, [4]⟩).total_loan_outstanding +
      (compute_snapshot_data ⟨[some (3/2)], [], [], [], [some 2], [], some 10, [4]⟩).total_credit_card_outstanding ∧
    (compute_snapshot_data ⟨[some (3/2)], [], [], [], [some 2], [], some 10, [4]⟩).net_worth =
      (compute_snapshot_data ⟨[some (3/2)], [], [], [], [some 2], [], some 10, [4]⟩).total_assets -
      (compute_snapshot_data ⟨[some (3/2)], [], [], [], [some 2], [], some 10, [4]⟩).total_liabilities :=
  (claim_C2_snapshot_equations _).2.2.2 (by
    refine ⟨?_, ?_, ?_, ?_, ?_, ?_, ⟨1000, by norm_num [Option.getD]⟩, ?_⟩
    · intro o ho; rw [List.mem_singleton] at ho; subst ho
      exact ⟨150, by norm_num [Option.getD]⟩
    · intro o ho; simp at ho
    · intro o ho; simp at ho
    · intro o ho; simp at ho
    · intro o ho; rw [List.mem_singleton] at ho; subst ho
      exact ⟨200, by norm_num [Option.getD]⟩
    · intro o ho; simp at ho
    · intro q hq; rw [List.mem_singleton] at hq; subst hq
      exact ⟨400, by norm_num⟩)

/-- Claim C1 (amended): `calculate_emi` returns `round2 (P / n)` when the
monthly rate is zero and the rounded annuity formula otherwise, but the
EMI derived at loan creation (`create_loan` in src/backend/crud.py)
applies the annuity formula unconditionally: for `r > 0` and `n > 0` it
agrees with `calculate_emi`, while for `r = 0` it fails with
`ZeroDivisionError` — so the zero-rate case `EMI(P, 0, n) = round2 (P/n)`
does not hold at loan creation. -/
theorem claim_C1_emi_formula :
    (∀ (P : ℚ) (n : ℤ), n ≠ 0 → calculate_emi P 0 n = .ok (round2 (P / (n : ℚ)))) ∧
    (∀ (P r : ℚ) (n : ℤ), 0 < r → 0 < n → create_loan_emi P r n = calculate_emi P r n) ∧
    (∀ (P : ℚ) (n : ℤ), create_loan_emi P 0 n = .error .zeroDivisionError) := by
  refine ⟨?_, ?_, ?_⟩
  · intro P n hn
    unfold calculate_emi
    dsimp only
    rw [if_neg (by norm_num), if_neg (by exact_mod_cast hn)]
  · intro P r n hr hn
    have hm : 0 < r / (12 * 100) := by positivity
    have h1 : (1 : ℚ) < 1 + r / (12 * 100) := by linarith
    have hne : (1 + r / (12 * 100)) ^ n - 1 ≠ 0 := by
      rw [sub_ne_zero]
      exact ne_of_gt (one_lt_zpow₀ h1 hn)
    unfold create_loan_emi calculate_emi
    dsimp only
    rw [if_neg hne, if_pos hm]
  · intro P n
    unfold create_loan_emi
    dsimp only
    rw [if_pos (by norm_num)]

theorem claim_C1_witness :
    ((12 : ℤ) ≠ 0) ∧ calculate_emi 1000 0 12 = .ok (round2 (1000 / ((12 : ℤ) : ℚ))) ∧
    ((0 : ℚ) < 13 / 2 ∧ (0 : ℤ) < 240) ∧
    create_loan_emi 500000 (13 / 2) 240 = calculate_emi 500000 (13 / 2) 240 ∧
    create_loan_emi 42 0 7 = .error .zeroDivisionError :=
  ⟨by decide, claim_C1_emi_formula.1 1000 12 (by decide),
   ⟨by norm_num, by decide⟩,
   claim_C1_emi_formula.2.1 500000 (13 / 2) 240 (by norm_num) (by decide),
   claim_C1_emi_formula.2.2 42 7⟩

/-- Claim C1, counterexample to the claim as stated: at `P = 1000`,
`r = 0`, `n = 12`, `calculate_emi` returns `83.33` but the EMI computed
at loan creation fails with `ZeroDivisionError`, so the claimed formula
does not hold at every place the EMI is computed. -/
theorem claim_C1_counterexample :
    calculate_emi 1000 0 12 = .ok (8333 / 100) ∧
    create_loan_emi 1000 0 12 = .error .zeroDivisionError := by
  constructor
  · norm_num [calculate_emi, round2, roundTE]
  · norm_num [create_loan_emi]

/-- Claim C6 (amended): `calculate_emi` performs no tenure validation and
never raises an `InvalidInputError` (no such exception exists in the
code): with `n = 0` it fails with `ZeroDivisionError` (zero denominator),
and with `n < 0` and a positive rate it returns an ordinary numeric
result. -/
theorem claim_C6_no_validation :
    (∀ (P r : ℚ) (n : ℤ), n = 0 → calculate_emi P r n = .error .zeroDivisionError) ∧
    (∀ (P r : ℚ) (n : ℤ), 0 < r → n < 0 → ∃ v, calculate_emi P r n = .ok v) := by
  constructor
  · rintro P r n rfl
    unfold calculate_emi
    dsimp only
    by_cases hm : 0 < r / (12 * 100)
    · rw [if_pos hm, if_pos (by norm_num)]
    · rw [if_neg hm, if_pos (by norm_num)]
  · intro P r n hr hn
    have hm : 0 < r / (12 * 100) := by positivity
    have h1 : (1 : ℚ) < 1 + r / (12 * 100) := by linarith
    have hne : (1 + r / (12 * 100)) ^ n - 1 ≠ 0 := by
      rw [sub_ne_zero]
      intro h
      have : n = 0 := (zpow_eq_one_iff_right₀ (by positivity) (ne_of_gt h1)).mp h
      omega
    exact ⟨_, by unfold calculate_emi; dsimp only; rw [if_pos hm, if_neg hne]⟩

theorem claim_C6_witness :
    ((0 : ℤ) = 0 ∧ calculate_emi 1000 12 0 = .error .zeroDivisionError) ∧
    ((0 : ℚ) < 12 ∧ (-12 : ℤ) < 0 ∧ ∃ v, calculate_emi 1000 12 (-12) = .ok v) :=
  ⟨⟨rfl, claim_C6_no_validation.1 1000 12 0 rfl⟩,
   ⟨by norm_num, by decide, claim_C6_no_validation.2 1000 12 (-12) (by norm_num) (by decide)⟩⟩

/-- Claim C6, counterexample to the claim as stated: for the non-positive
tenure `n = -12` with `P = 1000`, `r = 12`, `calculate_emi` raises
nothing at all — it returns the number `-78.85`. -/
theorem claim_C6_counterexample :
    calculate_emi 1000 12 (-12) = .ok (-1577 / 20) := by
  norm_num [calculate_emi, round2, roundTE]

theorem scheduleFrom_length (m e : ℚ) : ∀ (k : ℕ) (bal : ℚ) (mo : ℕ),
    (scheduleFrom m e bal mo k).length = k := by
  intro k
  induction k with
  | zero => intro bal mo; rfl
  | succ k ih => intro bal mo; simp [scheduleFrom, ih]

theorem runningBalance_shift (m e P : ℚ) : ∀ k : ℕ,
    runningBalance m e (P - (e - P * m)) k = runningBalance m e P (k + 1) := by
  intro k
  induction k with
  | zero => rfl
  | succ k ih => unfold runningBalance; rw [ih]

theorem scheduleFrom_getElem (m e : ℚ) : ∀ (n k : ℕ) (bal : ℚ) (mo : ℕ), k < n →
    (scheduleFrom m e bal mo n)[k]? = some
      ⟨mo + k, e,
       round2 (runningBalance m e bal k * m),
       round2 (e - runningBalance m e bal k * m),
       round2 (max (runningBalance m e bal (k + 1)) 0)⟩ := by
  intro n
  induction n with
  | zero => intro k bal mo h; omega
  | succ n ih =>
    intro k bal mo h
    match k with
    | 0 => simp [scheduleFrom, runningBalance]
    | k' + 1 =>
      rw [show scheduleFrom m e bal mo (n + 1) =
        ⟨mo, e, round2 (bal * m), round2 (e - bal * m),
          round2 (max (bal - (e - bal * m)) 0)⟩ ::
          scheduleFrom m e (bal - (e - bal * m)) (mo + 1) n from rfl]
      rw [List.getElem?_cons_succ]
      rw [ih k' (bal - (e - bal * m)) (mo + 1) (by omega)]
      rw [runningBalance_shift, runningBalance_shift]
      congr 2
      omega

theorem runningBalance_sum (m e P : ℚ) : ∀ n : ℕ,
    ((List.range n).map (fun k => e - runningBalance m e P k * m)).sum =
      P - runningBalance m e P n := by
  intro n
  induction n with
  | zero => simp [runningBalance]
  | succ n ih =>
    rw [List.range_succ, List.map_append, List.sum_append]
    simp only [List.map_cons, List.map_nil, List.sum_cons, List.sum_nil, add_zero]
    rw [ih]
    show _ = P - (runningBalance m e P n - (e - runningBalance m e P n * m))
    ring

theorem runningBalance_closed (m e P : ℚ) (hm : m ≠ 0) : ∀ n : ℕ,
    runningBalance m e P n = P * (1 + m) ^ n - e * ((1 + m) ^ n - 1) / m := by
  intro n
  induction n with
  | zero => norm_num [runningBalance]
  | succ n ih =>
    show runningBalance m e P n - (e - runningBalance m e P n * m) = _
    rw [ih, pow_succ]
    field_simp
    ring

theorem runningBalance_fixed (m e bal : ℚ) (hfix : e - bal * m = 0) :
    ∀ k : ℕ, runningBalance m e bal k = bal := by
  intro k
  induction k with
  | zero => rfl
  | succ k ih =>
    show runningBalance m e bal k - (e - runningBalance m e bal k * m) = bal
    rw [ih, hfix, sub_zero]

theorem scheduleFrom_fixed_principals (m e bal : ℚ) (hfix : e - bal * m = 0) :
    ∀ (k : ℕ) (mo : ℕ),
      (scheduleFrom m e bal mo k).map ScheduleRow.principal = List.replicate k (round2 0) := by
  intro k
  induction k with
  | zero => intro mo; rfl
  | succ k ih =>
    intro mo
    rw [show scheduleFrom m e bal mo (k + 1) =
      ⟨mo, e, round2 (bal * m), round2 (e - bal * m),
        round2 (max (bal - (e - bal * m)) 0)⟩ ::
        scheduleFrom m e (bal - (e - bal * m)) (mo + 1) k from rfl]
    rw [hfix, sub_zero, List.map_cons, ih (mo + 1), List.replicate_succ]

/-- Claim C4 (amended): for every input, `calculate_loan_schedule` emits
exactly `n` rows; row `k` (1-based month `k+1` at 0-based index `k`) has
`interest = balance * (r/1200)` and `principal = E - interest` computed
from the unclamped running balance, the running balance is decremented
without clamping, and only the reported balance is clamped to `>= 0`.
With the EXACT (unrounded) annuity EMI `E = P*m*(1+m)^n/((1+m)^n - 1)`
the running balance after `n` months is exactly `0` and the unrounded
principal parts sum exactly to `P`; with the rounded EMI actually passed
in, the deviation is not bounded by 1.00 currency unit (see the
counterexample). -/
theorem claim_C4_schedule_structure :
    (∀ (P r : ℚ) (n : ℕ) (E : ℚ), (calculate_loan_schedule P r n E).length = n) ∧
    (∀ (P r : ℚ) (n : ℕ) (E : ℚ) (k : ℕ), k < n →
      (calculate_loan_schedule P r n E)[k]? = some
        ⟨k + 1, E,
         round2 (runningBalance (r / (12 * 100)) E P k * (r / (12 * 100))),
         round2 (E - runningBalance (r / (12 * 100)) E P k * (r / (12 * 100))),
         round2 (max (runningBalance (r / (12 * 100)) E P (k + 1)) 0)⟩) ∧
    (∀ (P m : ℚ) (n : ℕ), 0 < m → (1 + m) ^ n - 1 ≠ 0 →
      runningBalance m (P * m * (1 + m) ^ n / ((1 + m) ^ n - 1)) P n = 0 ∧
      ((List.range n).map (fun k =>
        P * m * (1 + m) ^ n / ((1 + m) ^ n - 1) -
          runningBalance m (P * m * (1 + m) ^ n / ((1 + m) ^ n - 1)) P k * m)).sum = P) := by
  refine ⟨?_, ?_, ?_⟩
  · intro P r n E
    exact scheduleFrom_length _ _ n P 1
  · intro P r n E k hk
    unfold calculate_loan_schedule
    rw [scheduleFrom_getElem _ _ n k P 1 hk]
    congr 2
    omega
  · intro P m n hm hne
    have hz : runningBalance m (P * m * (1 + m) ^ n / ((1 + m) ^ n - 1)) P n = 0 := by
      rw [runningBalance_closed _ _ _ (ne_of_gt hm)]
      field_simp
      ring
    exact ⟨hz, by rw [runningBalance_sum, hz, sub_zero]⟩

theorem claim_C4_witness :
    (calculate_loan_schedule 1000 1200 30 1000).length = 30 ∧
    ((0 : ℕ) < 30 ∧ (calculate_loan_schedule 1000 1200 30 1000)[0]? = some
      ⟨0 + 1, 1000,
       round2 (runningBalance (1200 / (12 * 100)) 1000 1000 0 * (1200 / (12 * 100))),
       round2 (1000 - runningBalance (1200 / (12 * 100)) 1000 1000 0 * (1200 / (12 * 100))),
       round2 (max (runningBalance (1200 / (12 * 100)) 1000 1000 (0 + 1)) 0)⟩) ∧
    ((0 : ℚ) < 1 ∧ ((1 : ℚ) + 1) ^ (2 : ℕ) - 1 ≠ 0 ∧
      runningBalance 1 (100 * 1 * (1 + 1) ^ (2 : ℕ) / ((1 + 1) ^ (2 : ℕ) - 1)) 100 2 = 0 ∧
      ((List.range 2).map (fun k =>
        100 * 1 * ((1 : ℚ) + 1) ^ (2 : ℕ) / (((1 : ℚ) + 1) ^ (2 : ℕ) - 1) -
          runningBalance 1 (100 * 1 * (1 + 1) ^ (2 : ℕ) / ((1 + 1) ^ (2 : ℕ) - 1)) 100 k * 1)).sum
        = 100) :=
  ⟨claim_C4_schedule_structure.1 1000 1200 30 1000,
   ⟨by norm_num, claim_C4_schedule_structure.2.1 1000 1200 30 1000 0 (by norm_num)⟩,
   ⟨by norm_num, by norm_num,
    (claim_C4_schedule_structure.2.2 100 1 2 (by norm_num) (by norm_num)).1,
    (claim_C4_schedule_structure.2.2 100 1 2 (by norm_num) (by norm_num)).2⟩⟩

/-- Claim C4, counterexample to the claim as stated: at `P = 1000`,
`r = 1200` (monthly rate `m = 1`), `n = 30`, the rounded EMI is exactly
`1000`, the running balance stays at `1000` forever, every row's
principal is `0`, the 30 principals sum to `0` — off from `P = 1000` by
far more than 1.00 — and the final row's reported balance is `1000`,
not approximately `0`. -/
theorem claim_C4_counterexample :
    calculate_emi 1000 1200 30 = .ok 1000 ∧
    ((calculate_loan_schedule 1000 1200 30 1000).map ScheduleRow.principal).sum = 0 ∧
    (calculate_loan_schedule 1000 1200 30 1000).getLast? =
      some ⟨30, 1000, 1000, 0, 1000⟩ ∧
    ¬ |(1000 : ℚ) -
        ((calculate_loan_schedule 1000 1200 30 1000).map ScheduleRow.principal).sum| ≤ 1 := by
  have hfix : (1000 : ℚ) - 1000 * (1200 / (12 * 100)) = 0 := by norm_num
  have h0 : round2 0 = 0 := by norm_num [round2, roundTE]
  have hsum : ((calculate_loan_schedule 1000 1200 30 1000).map ScheduleRow.principal).sum = 0 := by
    unfold calculate_loan_schedule
    rw [scheduleFrom_fixed_principals (1200 / (12 * 100)) 1000 1000 hfix 30 1, h0]
    simp
  refine ⟨?_, hsum, ?_, ?_⟩
  · norm_num [calculate_emi, round2, roundTE]
  · unfold calculate_loan_schedule
    rw [List.getLast?_eq_getElem?, scheduleFrom_length (1200 / (12 * 100)) 1000 30 1000 1,
      show (30 : ℕ) - 1 = 29 from rfl,
      scheduleFrom_getElem (1200 / (12 * 100)) 1000 30 29 1000 1 (by norm_num),
      runningBalance_fixed _ _ _ hfix 29, runningBalance_fixed _ _ _ hfix 30]
    norm_num [round2, roundTE]
  · rw [hsum]
    norm_num

/-- Claim C8 (confirmed): rule-based anomaly detection returns no
anomalies when fewer than 3 monthly totals exist; otherwise a month is
reported anomalous exactly when its total exceeds
`mean + 2 * std` (pandas' sample standard deviation, ddof = 1), and each
reported month carries `deviation = (total - mean) / std` and the
threshold it was compared against. -/
theorem claim_C8_rule_based (xs : List ℝ) :
    (xs.length < 3 → rule_based_detection xs = []) ∧
    (∀ a : AnomalyRecord, a ∈ rule_based_detection xs ↔
      (3 ≤ xs.length ∧
       (a.month, a.total_expense) ∈ xs.enum ∧
       seriesMean xs + 2 * seriesStd xs < a.total_expense ∧
       a.threshold = seriesMean xs + 2 * seriesStd xs ∧
       a.deviation = (a.total_expense - seriesMean xs) / seriesStd xs)) := by
  constructor
  · intro h
    unfold rule_based_detection
    rw [if_pos h]
  · intro a
    unfold rule_based_detection
    by_cases h : xs.length < 3
    · rw [if_pos h]
      simp only [List.not_mem_nil, false_iff]
      rintro ⟨h3, -⟩
      omega
    · rw [if_neg h]
      dsimp only
      rw [List.mem_filterMap]
      constructor
      · rintro ⟨⟨i, v⟩, hp, hfa⟩
        by_cases hc : seriesMean xs + 2 * seriesStd xs < (i, v).2
        · rw [if_pos hc] at hfa
          cases hfa
          exact ⟨by omega, hp, hc, rfl, rfl⟩
        · rw [if_neg hc] at hfa
          exact absurd hfa (by simp)
      · obtain ⟨mo, te, th, dv⟩ := a
        rintro ⟨h3, hmem, hgt, hthr, hdev⟩
        dsimp only at hmem hgt hthr hdev
        subst hthr hdev
        exact ⟨(mo, te), hmem, by rw [if_pos hgt]⟩

theorem claim_C8_witness : rule_based_detection [(1 : ℝ), 2] = [] :=
  (claim_C8_rule_based [1, 2]).1 (by norm_num)

theorem syntheticSeries_std_lower :
    (16000 : ℝ) ≤ seriesStd [10000, 10000, 10000, 10000, 50000] := by
  have hm : seriesMean [(10000 : ℝ), 10000, 10000, 10000, 50000] = 18000 := by
    unfold seriesMean
    norm_num
  unfold seriesStd
  rw [hm]
  have hv : ((([(10000 : ℝ), 10000, 10000, 10000, 50000]).map
      (fun x => (x - 18000) ^ 2)).sum /
      ((([(10000 : ℝ), 10000, 10000, 10000, 50000]).length : ℝ) - 1)) = 320000000 := by
    norm_num
  rw [hv]
  rw [show (16000 : ℝ) = Real.sqrt (16000 ^ 2) from (Real.sqrt_sq (by norm_num)).symm]
  exact Real.sqrt_le_sqrt (by norm_num)

theorem syntheticSeries_detection_empty :
    rule_based_detection [10000, 10000, 10000, 10000, 50000] = [] := by
  have hm : seriesMean [(10000 : ℝ), 10000, 10000, 10000, 50000] = 18000 := by
    unfold seriesMean
    norm_num
  have hstd := syntheticSeries_std_lower
  unfold rule_based_detection
  rw [if_neg (by norm_num)]
  rw [List.filterMap_eq_nil_iff]
  intro p hp
  rw [hm] at *
  have hT : (50000 : ℝ) ≤ 18000 + 2 * seriesStd [10000, 10000, 10000, 10000, 50000] := by
    linarith
  fin_cases hp <;> · rw [if_neg (by push_neg; exact le_trans (by norm_num) hT)]

/-- Claim C9 (amended): on the monthly-totals series
`[10000, 10000, 10000, 10000, 50000]` rule-based detection flags NO
month: the mean is `18000` and the sample standard deviation is
`sqrt 320000000 ≈ 17888.54`, so the threshold
`mean + 2 * std ≈ 53777.09` is at least `50000` and the fifth month's
total does not exceed it. -/
theorem claim_C9_synthetic_series :
    rule_based_detection [10000, 10000, 10000, 10000, 50000] = [] ∧
    (50000 : ℝ) ≤ seriesMean [10000, 10000, 10000, 10000, 50000] +
      2 * seriesStd [10000, 10000, 10000, 10000, 50000] := by
  refine ⟨syntheticSeries_detection_empty, ?_⟩
  have hm : seriesMean [(10000 : ℝ), 10000, 10000, 10000, 50000] = 18000 := by
    unfold seriesMean
    norm_num
  rw [hm]
  have := syntheticSeries_std_lower
  linarith

/-- Claim C9, counterexample to the claim as stated: the detector's
output on `[10000, 10000, 10000, 10000, 50000]` contains no record for
the fifth month (index 4) — the claimed anomaly is not flagged. -/
theorem claim_C9_counterexample :
    ¬ ∃ a ∈ rule_based_detection [10000, 10000, 10000, 10000, 50000], a.month = 4 := by
  rw [syntheticSeries_detection_empty]
  simp
